import Mathlib

/-!
Shallow embedding of the news_agent repository core: the importance
classifier with its two-tier fallback (ai_summarizer.py), the filter
stage, the digest composer and merge, the feed normalization
(news_fetcher.py), and the four-node pipeline orchestrator
(news_agent.py).  Model calls, JSON parsing and database calls are
abstracted as oracle functions supplied as parameters; exceptions are
modelled as `Except`/`Option` values.
-/

/-- Python `str.strip()`: drop leading and trailing whitespace. -/
def pyStrip (s : String) : String :=
  String.mk (((s.data.dropWhile Char.isWhitespace).reverse.dropWhile Char.isWhitespace).reverse)

/-- Python `s[:n]`: the first `n` characters of a string. -/
def pyTake (s : String) (n : Nat) : String :=
  String.mk (s.data.take n)

/-- Python `len(s)`: number of characters. -/
def pyLen (s : String) : Nat :=
  s.data.length

/-- Python `s.split('\n')[0]`: the characters before the first newline. -/
def pyFirstLine (s : String) : String :=
  String.mk (s.data.takeWhile (fun c => c ≠ '\n'))

/-- Python `re.search(r'\{.*}', text, re.DOTALL)`: with a greedy `.*` in
DOTALL mode this matches from the first left brace to the last right brace
of the whole text, provided the last right brace comes after the first left
brace; otherwise there is no match. -/
def extractJsonSpan (s : String) : Option String :=
  match s.data.findIdx? (fun c => c = '\x7b'), s.data.reverse.findIdx? (fun c => c = '\x7d') with
  | some i, some jr =>
      let j := s.data.length - 1 - jr
      if i < j then some (String.mk ((s.data.drop i).take (j - i + 1))) else none
  | _, _ => none

/-- A normalized news item `{title, content}` (output of
`news_fetcher.parse_news_item`, element of the list fed to
`filter_important_news`). -/
structure RawNewsItem where
  title : String
  content : String
deriving DecidableEq

/-- The pydantic `NewsAnalysis` model of ai_summarizer.py: `importance`
is required, `summary` and `keywords` are `Optional[str]`. -/
structure NewsAnalysis where
  importance : String
  summary : Option String
  keywords : Option String
deriving DecidableEq

/-- The plain dict returned by `analyze_news_importance`:
`{importance, summary, keywords}`, all strings. -/
structure Verdict where
  importance : String
  summary : String
  keywords : String
deriving DecidableEq

/-- A record emitted by `filter_important_news`:
`{original_title, original_content, importance, summary, keywords}`. -/
structure ImportantNewsRecord where
  original_title : String
  original_content : String
  importance : String
  summary : String
  keywords : String
deriving DecidableEq

/-- Oracle abstracting the language model and the JSON parser.  Each
field models one external call of ai_summarizer.py, keyed by the varying
part of the prompt; `Except.error` models a raised exception.
`structuredResp` is `structured_llm.invoke` on the summary prompt,
`jsonResp` is `llm.invoke` on the JSON-mode prompt, `parseJson` is
`json.loads` (a parsed object is modelled by its string-valued lookup),
`finalResp` is `llm.invoke` on the final-summary prompt (keyed by the
numbered summary block), `mergeResp` is `llm.invoke` on the merge prompt
(keyed by the existing summary and the numbered new block). -/
structure LLMOracle where
  structuredResp : String → Except String NewsAnalysis
  jsonResp : String → Except String String
  parseJson : String → Except String (String → Option String)
  finalResp : String → Except String String
  mergeResp : String → String → Except String String

/-- `AISummarizer._analyze_with_json_mode`: invoke the model on the
JSON-mode prompt, strip the response, search for a `{...}` span, parse it
and map missing keys to defaults (importance `低`, summary and keywords
empty); raise `ValueError` with the first 100 characters of the response
when no span is found. -/
def analyzeWithJsonMode (O : LLMOracle) (news_content : String) : Except String Verdict :=
  match O.jsonResp news_content with
  | .error e => .error e
  | .ok raw =>
    let response_text := pyStrip raw
    match extractJsonSpan response_text with
    | some json_str =>
      match O.parseJson json_str with
      | .error e => .error e
      | .ok result_dict =>
          .ok { importance := (result_dict ("importance")).getD ("低"),
                summary := (result_dict ("summary")).getD (""),
                keywords := (result_dict ("keywords")).getD ("") }
    | none => .error ("无法从响应中提取JSON，AI回复:" ++ pyTake response_text 100 ++ "...")

/-- `AISummarizer.analyze_news_importance`: try structured output first
(`summary or ''` maps a missing or empty summary to the empty string);
on failure try JSON mode; if that also fails return the FAILED verdict
instead of raising. -/
def analyze_news_importance (O : LLMOracle) (news_content : String) : Verdict :=
  match O.structuredResp news_content with
  | .ok result =>
      { importance := result.importance,
        summary := (result.summary).getD (""),
        keywords := (result.keywords).getD ("") }
  | .error _ =>
    match analyzeWithJsonMode O news_content with
    | .ok v => v
    | .error e2 =>
        { importance := "FAILED",
          summary := "AI分析失败:" ++ e2,
          keywords := "AI分析失败" }

/-- `AISummarizer.filter_important_news`: classify each item in input
order; skip FAILED verdicts, keep verdicts in `['中','高']` paired with
the original title and content, skip the rest. -/
def filter_important_news (O : LLMOracle) : List RawNewsItem → List ImportantNewsRecord
  | [] => []
  | news :: rest =>
    let analysis := analyze_news_importance O news.content
    if analysis.importance = "FAILED" then
      filter_important_news O rest
    else if analysis.importance = "中" ∨ analysis.importance = "高" then
      { original_title := news.title,
        original_content := news.content,
        importance := analysis.importance,
        summary := analysis.summary,
        keywords := analysis.keywords } :: filter_important_news O rest
    else
      filter_important_news O rest

/-- The record `filter_important_news` would emit for one item: the item
paired with its verdict. -/
def toImportantRecord (O : LLMOracle) (news : RawNewsItem) : ImportantNewsRecord :=
  { original_title := news.title,
    original_content := news.content,
    importance := (analyze_news_importance O news.content).importance,
    summary := (analyze_news_importance O news.content).summary,
    keywords := (analyze_news_importance O news.content).keywords }

/-- The numbered block `"{i}.{summary}(重要性:{importance})"` joined by
newlines, built identically in `create_final_summary` and
`merge_summaries`. -/
def numberedSummaries (important_news : List ImportantNewsRecord) : String :=
  String.intercalate "\n"
    (important_news.enum.map
      (fun p => toString (p.1 + 1) ++ "." ++ p.2.summary ++ "(重要性:" ++ p.2.importance ++ ")"))

/-- `AISummarizer.create_final_summary`: the sentinel on an empty list;
otherwise ask the model, and on failure degrade to a backtick-bulleted
join of the summaries. -/
def create_final_summary (O : LLMOracle) (important_news : List ImportantNewsRecord) : String :=
  if important_news = [] then "今日暂无重要新闻。"
  else
    match O.finalResp (numberedSummaries important_news) with
    | .ok response => pyStrip response
    | .error _ =>
        "今日重要新闻总结：\n" ++
          String.intercalate "\n" (important_news.map (fun news => "`" ++ news.summary))

/-- `AISummarizer.merge_summaries`: return the existing summary unchanged
when there are no new records; otherwise ask the model to merge, and on
failure degrade to `existing + "\n\n【新增内容】\n" + new_summary`. -/
def merge_summaries (O : LLMOracle) (existing_summary new_summary : String)
    (new_important_news : List ImportantNewsRecord) : String :=
  if new_important_news = [] then existing_summary
  else
    match O.mergeResp existing_summary (numberedSummaries new_important_news) with
    | .ok response => pyStrip response
    | .error _ => existing_summary ++ "\n\n【新增内容】\n" ++ new_summary

/-- A Python value stored under a dict key, as news_fetcher.py uses it:
only its `str()` form and its truthiness matter. -/
structure PyVal where
  str : String
  truthy : Bool
deriving DecidableEq

/-- One element of the list returned by `fetch_latest_news`: either a
dict (an association list of field names to values) or a non-dict item,
modelled by its `str()` form. -/
inductive UpstreamItem where
  | obj (fields : List (String × PyVal))
  | prim (s : String)
deriving DecidableEq

/-- Python `str(news_item)` for a dict: its exact shape is irrelevant to
the code, only that it is never the empty string (it is at least `{}`). -/
def pyStrOfDict (fields : List (String × PyVal)) : String :=
  "\x7b" ++ String.intercalate ", " (fields.map (fun p => p.1 ++ ": " ++ p.2.str)) ++ "\x7d"

/-- The loop `for field in fields: if field in news_item and
news_item[field]: ... break` of `parse_news_item`: the first field that
is present with a truthy value, paired with its stripped `str()` form. -/
def firstTruthyField (news_item : List (String × PyVal)) : List String → Option (String × String)
  | [] => none
  | field :: rest =>
    match news_item.lookup field with
    | some v => if v.truthy then some (field, pyStrip v.str) else firstTruthyField news_item rest
    | none => firstTruthyField news_item rest

/-- The title field aliases tried by `parse_news_item`, in order. -/
def title_fields : List String :=
  ["title", "headline", "subject", "name", "summary", "app_msg"]

/-- The content field aliases tried by `parse_news_item`, in order. -/
def content_fields : List String :=
  ["content", "body", "text", "description", "detail", "article", "app_msg"]

/-- `NewsFetcher.parse_news_item`: extract title and content from field
aliases (for `app_msg` the first line becomes the title); if the title is
still empty and the content is non-empty, the first 50 characters of the
content plus `...` become the title; if the content is still empty, the
whole item stringified becomes the content.  Note the title fallback runs
before the content fallback, so an item with no usable field at all keeps
an empty title. -/
def parse_news_item (news_item : List (String × PyVal)) : RawNewsItem :=
  let title0 :=
    match firstTruthyField news_item title_fields with
    | some (field, content_text) =>
        if field = "app_msg" then pyStrip (pyFirstLine content_text) else content_text
    | none => ""
  let content0 :=
    match firstTruthyField news_item content_fields with
    | some (_, s) => s
    | none => ""
  let title1 := if title0 = "" ∧ content0 ≠ "" then pyTake content0 50 ++ "..." else title0
  let content1 := if content0 = "" then pyStrOfDict news_item else content0
  { title := title1, content := content1 }

/-- The loop body of `get_processed_news`: dict items go through
`parse_news_item` and are kept only when both fields are non-empty;
non-dict items are appended unconditionally, the title being the `str()`
form truncated to 100 characters plus `...` when longer. -/
def processRawItems : List UpstreamItem → List RawNewsItem
  | [] => []
  | .obj news_item :: rest =>
    let parsed_item := parse_news_item news_item
    if parsed_item.title ≠ "" ∧ parsed_item.content ≠ "" then
      parsed_item :: processRawItems rest
    else
      processRawItems rest
  | .prim s :: rest =>
    { title := if pyLen s > 100 then pyTake s 100 ++ "..." else s, content := s }
      :: processRawItems rest

/-- `NewsFetcher.get_processed_news`, parametrized by the outcome of
`fetch_latest_news` (`none` models a `None` return after a caught network
error): on `None` or an empty list return `[]`, else process the items. -/
def get_processed_news (fetched : Option (List UpstreamItem)) : List RawNewsItem :=
  match fetched with
  | none => []
  | some raw_news => if raw_news = [] then [] else processRawItems raw_news

/-- The `NewsAgentState` TypedDict of news_agent.py; `messages` keeps the
appended system-message contents. -/
structure NewsAgentState where
  messages : List String
  raw_news : List RawNewsItem
  important_news : List ImportantNewsRecord
  final_summary : String
  saved_count : Nat
  error : String
deriving DecidableEq

/-- Oracle for one pipeline run: the language-model oracle, the outcome
of the feed fetch, exception injection for the try/except blocks of the
classify and compose nodes (each node wraps a collaborator call in a
handler; `some e` models that call raising `e`), the database answers
(`dbExists k t` is the result of the `k`-th database call when it is
`check_news_exists(t)`, `dbInsert k t` likewise for `insert_news`; per
database.py both return booleans and do not raise), and today's date
string. -/
structure PipelineOracle where
  llm : LLMOracle
  fetchExc : Option String
  fetchRaw : Option (List UpstreamItem)
  classifyExc : Option String
  summaryExc : Option String
  dbExists : Nat → String → Bool
  dbInsert : Nat → String → Bool
  today : String

/-- `fetch_news_node`: store the fetched news, or record an error when
the fetch raised or returned nothing. -/
def fetch_news_node (O : PipelineOracle) (state : NewsAgentState) : NewsAgentState :=
  match O.fetchExc with
  | some e =>
    { state with error := "获取新闻失败: " ++ e,
                 messages := state.messages ++ ["获取新闻失败: " ++ e] }
  | none =>
    let raw_news := get_processed_news O.fetchRaw
    if raw_news ≠ [] then
      { state with raw_news := raw_news,
                   messages := state.messages ++
                     ["成功获取 " ++ toString raw_news.length ++ " 条新闻"] }
    else
      { state with error := "未获取到新闻数据",
                   messages := state.messages ++ ["未获取到新闻数据"] }

/-- `analyze_news_node`: error when there is no raw news; otherwise run
the filter stage, recording an error instead if the filter call raises. -/
def analyze_news_node (O : PipelineOracle) (state : NewsAgentState) : NewsAgentState :=
  if state.raw_news = [] then { state with error := "没有新闻数据可供分析" }
  else
    match O.classifyExc with
    | some e =>
      { state with error := "AI分析失败: " ++ e,
                   messages := state.messages ++ ["AI分析失败: " ++ e] }
    | none =>
      let important_news := filter_important_news O.llm state.raw_news
      { state with important_news := important_news,
                   messages := state.messages ++
                     [if important_news ≠ [] then
                        "AI分析完成，发现 " ++ toString important_news.length ++ " 条重要新闻"
                      else "AI分析完成，未发现重要新闻"] }

/-- `create_summary_node`: set the final summary from the digest
composer; on a raised exception record an error and the failure text. -/
def create_summary_node (O : PipelineOracle) (state : NewsAgentState) : NewsAgentState :=
  match O.summaryExc with
  | some e =>
    { state with error := "创建总结失败: " ++ e,
                 final_summary := "总结创建失败",
                 messages := state.messages ++ ["创建总结失败: " ++ e] }
  | none =>
    { state with final_summary := create_final_summary O.llm state.important_news,
                 messages := state.messages ++ ["新闻总结创建完成"] }

/-- The per-record loop of `save_to_database_node`: for each record,
check existence by title and insert when absent, counting only successful
inserts; `k` threads the database-call index.  Returns the count and the
next call index. -/
def saveNewsLoop (O : PipelineOracle) : List ImportantNewsRecord → Nat → Nat → Nat × Nat
  | [], k, saved_count => (saved_count, k)
  | news :: rest, k, saved_count =>
    if O.dbExists k news.original_title then
      saveNewsLoop O rest (k + 1) saved_count
    else if O.dbInsert (k + 1) news.original_title then
      saveNewsLoop O rest (k + 2) (saved_count + 1)
    else
      saveNewsLoop O rest (k + 2) saved_count

/-- `save_to_database_node`: save each important record, then the digest
row, attempted only when the final summary is non-empty, differs from the
sentinel, and no row with the dated summary title exists. -/
def save_to_database_node (O : PipelineOracle) (state : NewsAgentState) : NewsAgentState :=
  let res := saveNewsLoop O state.important_news 0 0
  let summary_title := "每日新闻总结 - " ++ O.today
  let final_count :=
    if state.final_summary ≠ "" ∧ state.final_summary ≠ "今日暂无重要新闻。" then
      if O.dbExists res.2 summary_title then res.1
      else if O.dbInsert (res.2 + 1) summary_title then res.1 + 1
      else res.1
    else res.1
  { state with saved_count := final_count,
               messages := state.messages ++
                 ["成功保存 " ++ toString final_count ++ " 条记录到数据库"] }

/-- `should_continue`: end the run on a recorded error or missing raw
news, else continue. -/
def should_continue (state : NewsAgentState) : String :=
  if state.error ≠ "" then "end"
  else if state.raw_news = [] then "end"
  else "continue"

/-- The initial state built in `NewsAgent.run`. -/
def initialState : NewsAgentState :=
  { messages := ["新闻代理系统启动"],
    raw_news := [],
    important_news := [],
    final_summary := "",
    saved_count := 0,
    error := "" }

/-- The compiled LangGraph workflow: fetch, then the conditional edge
(`should_continue`), then the unconditional chain analyze → summary →
save. -/
def runAgent (O : PipelineOracle) : NewsAgentState :=
  let s1 := fetch_news_node O initialState
  if should_continue s1 = "end" then s1
  else save_to_database_node O (create_summary_node O (analyze_news_node O s1))

/-- The run report dict of `NewsAgent._generate_report` (timestamp and
message list aside). -/
structure RunReport where
  success : Bool
  raw_news_count : Nat
  important_news_count : Nat
  saved_count : Nat
  final_summary : String
  error : String
deriving DecidableEq

/-- `NewsAgent._generate_report`. -/
def generate_report (final_state : NewsAgentState) : RunReport :=
  { success := final_state.error = "",
    raw_news_count := final_state.raw_news.length,
    important_news_count := final_state.important_news.length,
    saved_count := final_state.saved_count,
    final_summary := final_state.final_summary,
    error := final_state.error }

/-- A model oracle on which every external call raises. -/
def errLLM : LLMOracle :=
  { structuredResp := fun _ => .error ("结构化失败"),
    jsonResp := fun _ => .error ("json请求超时"),
    parseJson := fun _ => .error ("解析错误"),
    finalResp := fun _ => .error ("请求超时"),
    mergeResp := fun _ _ => .error ("请求超时") }

/-- A model oracle whose structured tier always answers HIGH. -/
def okHighLLM : LLMOracle :=
  { errLLM with
    structuredResp := fun _ =>
      .ok { importance := "高", summary := some ("重大事件"), keywords := some ("市场") } }

/-- A model oracle whose structured tier fails and whose JSON tier
replies with text that contains no JSON object. -/
def noJsonLLM : LLMOracle :=
  { errLLM with jsonResp := fun _ => .ok ("no json here") }

/-- A model oracle whose structured tier fails and whose JSON tier
replies with an empty JSON object (every key missing). -/
def jsonDefaultsLLM : LLMOracle :=
  { errLLM with
    jsonResp := fun _ => .ok ("\x7b\x7d"),
    parseJson := fun _ => .ok (fun _ => none) }

/-- A single concrete important record used to exercise the merge path. -/
def sampleRecord : ImportantNewsRecord :=
  { original_title := "ETF获批",
    original_content := "SEC批准比特币现货ETF",
    importance := "高",
    summary := "重大利好",
    keywords := "ETF,SEC" }

/-- A concrete one-item batch for the filter stage. -/
def sampleBatch : List RawNewsItem :=
  [{ title := "ETF获批", content := "SEC批准比特币现货ETF" }]

/-- A pipeline oracle with a working fetch and database and an
all-failing model. -/
def basePipelineOracle : PipelineOracle :=
  { llm := errLLM,
    fetchExc := none,
    fetchRaw := some [UpstreamItem.prim ("突发新闻")],
    classifyExc := none,
    summaryExc := none,
    dbExists := fun _ _ => false,
    dbInsert := fun _ _ => true,
    today := "2026-10-12" }

/-- A pipeline oracle whose classify node raises. -/
def classifyFailOracle : PipelineOracle :=
  { basePipelineOracle with classifyExc := some ("boom") }

/-- A second pipeline oracle whose classify node raises, for the
amended-claim witness. -/
def classifyFailOracle2 : PipelineOracle :=
  { basePipelineOracle with classifyExc := some ("网络异常") }

/-- A pipeline oracle whose fetch call raises. -/
def fetchFailOracle : PipelineOracle :=
  { basePipelineOracle with fetchExc := some ("连接被拒绝") }

/-- A pipeline oracle whose fetch yields nothing. -/
def emptyFetchOracle : PipelineOracle :=
  { basePipelineOracle with fetchRaw := none }

/-- A concrete state entering the persist stage with one important
record and an empty final summary. -/
def persistStateC9 : NewsAgentState :=
  { initialState with important_news := [sampleRecord], final_summary := "" }

/-- Appending the literal `...` never yields the empty string. -/
theorem append_dots_ne_empty (a : String) : a ++ "..." ≠ "" := by
  intro h
  have h2 : a.length + ("..." : String).length = ("" : String).length := by
    rw [← String.length_append, h]
  have h3 : ("..." : String).length = 3 := rfl
  have h4 : ("" : String).length = 0 := rfl
  omega

/-- Helper: the filter stage is exactly the per-item filterMap that
emits the item-verdict pairing when the verdict is 中 or 高 and skips it
otherwise (FAILED and everything else, in particular 低). -/
theorem filter_important_news_eq_filterMap (O : LLMOracle) (news_list : List RawNewsItem) :
    filter_important_news O news_list =
      news_list.filterMap (fun news =>
        if (analyze_news_importance O news.content).importance = "中" ∨
            (analyze_news_importance O news.content).importance = "高" then
          some (toImportantRecord O news)
        else none) := by
  induction news_list with
  | nil => rfl
  | cons news rest ih =>
    by_cases hf : (analyze_news_importance O news.content).importance = "FAILED"
    · have hm : ¬((analyze_news_importance O news.content).importance = "中" ∨
          (analyze_news_importance O news.content).importance = "高") := by
        rw [hf]; decide
      simp [filter_important_news, hf, hm, List.filterMap_cons, ih]
    · by_cases hm : (analyze_news_importance O news.content).importance = "中" ∨
          (analyze_news_importance O news.content).importance = "高"
      · simp [filter_important_news, hf, hm, List.filterMap_cons, ih, toImportantRecord]
      · simp [filter_important_news, hf, hm, List.filterMap_cons, ih]

/-- C1: the filter stage classifies each item in input order, skips
FAILED and LOW verdicts, and emits for each HIGH (高) or MEDIUM (中)
verdict a record pairing the item with the verdict: the output equals the
per-item filterMap, every item with a 中 or 高 verdict produces its
record in the output, the output is no longer than the input, every
output importance is 高 or 中, and the output is an order-preserving
sublist of the per-item records. -/
theorem C1_filter_stage (O : LLMOracle) (news_list : List RawNewsItem) :
    filter_important_news O news_list =
      news_list.filterMap (fun news =>
        if (analyze_news_importance O news.content).importance = "中" ∨
            (analyze_news_importance O news.content).importance = "高" then
          some (toImportantRecord O news)
        else none) ∧
    (∀ news ∈ news_list,
       ((analyze_news_importance O news.content).importance = "中" ∨
        (analyze_news_importance O news.content).importance = "高") →
       toImportantRecord O news ∈ filter_important_news O news_list) ∧
    (filter_important_news O news_list).length ≤ news_list.length ∧
    (∀ r ∈ filter_important_news O news_list, r.importance = "高" ∨ r.importance = "中") ∧
    List.Sublist (filter_important_news O news_list) (news_list.map (toImportantRecord O)) := by
  refine ⟨filter_important_news_eq_filterMap O news_list, ?_, ?_⟩
  · intro news hmem hcond
    rw [filter_important_news_eq_filterMap O news_list]
    exact List.mem_filterMap.mpr ⟨news, hmem, if_pos hcond⟩
  induction news_list with
  | nil =>
    refine ⟨Nat.le_refl 0, ?_, ?_⟩ <;> simp [filter_important_news]
  | cons news rest ih =>
    obtain ⟨ih1, ih2, ih3⟩ := ih
    by_cases hf : (analyze_news_importance O news.content).importance = "FAILED"
    · have he : filter_important_news O (news :: rest) = filter_important_news O rest := by
        simp [filter_important_news, hf]
      rw [he]
      exact ⟨Nat.le_succ_of_le ih1, ih2, by
        simpa [List.map_cons] using ih3.cons (toImportantRecord O news)⟩
    · by_cases hm : (analyze_news_importance O news.content).importance = "中" ∨
          (analyze_news_importance O news.content).importance = "高"
      · have he : filter_important_news O (news :: rest) =
            toImportantRecord O news :: filter_important_news O rest := by
          simp [filter_important_news, hf, hm, toImportantRecord]
        rw [he]
        refine ⟨by simpa using Nat.succ_le_succ ih1, ?_, ?_⟩
        · intro r hr
          rcases List.mem_cons.mp hr with h | h
          · subst h
            simp only [toImportantRecord]
            exact Or.symm hm
          · exact ih2 r h
        · simpa [List.map_cons] using ih3.cons₂ (toImportantRecord O news)
      · have he : filter_important_news O (news :: rest) = filter_important_news O rest := by
          simp [filter_important_news, hf, hm]
        rw [he]
        exact ⟨Nat.le_succ_of_le ih1, ih2, by
          simpa [List.map_cons] using ih3.cons (toImportantRecord O news)⟩

/-- Witness for C1 at a concrete oracle and batch: the single item is
classified 高, so its record appears in the output, the length bound
holds, its importance is 高 or 中, and the output is a sublist of the
pairings. -/
theorem C1_filter_stage_witness :
    filter_important_news okHighLLM sampleBatch =
      sampleBatch.filterMap (fun news =>
        if (analyze_news_importance okHighLLM news.content).importance = "中" ∨
            (analyze_news_importance okHighLLM news.content).importance = "高" then
          some (toImportantRecord okHighLLM news)
        else none) ∧
    toImportantRecord okHighLLM { title := "ETF获批", content := "SEC批准比特币现货ETF" } ∈
      filter_important_news okHighLLM sampleBatch ∧
    (filter_important_news okHighLLM sampleBatch).length ≤ sampleBatch.length ∧
    ((toImportantRecord okHighLLM { title := "ETF获批", content := "SEC批准比特币现货ETF" }).importance = "高" ∨
     (toImportantRecord okHighLLM { title := "ETF获批", content := "SEC批准比特币现货ETF" }).importance = "中") ∧
    List.Sublist (filter_important_news okHighLLM sampleBatch)
      (sampleBatch.map (toImportantRecord okHighLLM)) :=
  ⟨(C1_filter_stage okHighLLM sampleBatch).1,
   (C1_filter_stage okHighLLM sampleBatch).2.1
     { title := "ETF获批", content := "SEC批准比特币现货ETF" } (by decide) (by decide),
   (C1_filter_stage okHighLLM sampleBatch).2.2.1,
   (C1_filter_stage okHighLLM sampleBatch).2.2.2.1
     (toImportantRecord okHighLLM { title := "ETF获批", content := "SEC批准比特币现货ETF" })
     (by decide),
   (C1_filter_stage okHighLLM sampleBatch).2.2.2.2⟩

/-- C2: the classifier is total: when the structured tier raises and the
JSON fallback tier also fails, `analyze_news_importance` returns the
FAILED verdict carrying the second failure's message instead of
propagating an exception; the result is a well-formed verdict with
string-valued importance, summary and keywords. -/
theorem C2_classifier_totality (O : LLMOracle) (content e1 e2 : String)
    (h1 : O.structuredResp content = .error e1)
    (h2 : analyzeWithJsonMode O content = .error e2) :
    analyze_news_importance O content =
      { importance := "FAILED",
        summary := "AI分析失败:" ++ e2,
        keywords := "AI分析失败" } := by
  simp [analyze_news_importance, h1, h2]

/-- Witness for C2 on the empty input string with both tiers failing. -/
theorem C2_classifier_totality_witness :
    analyze_news_importance errLLM ("") =
      { importance := "FAILED",
        summary := "AI分析失败:" ++ "json请求超时",
        keywords := "AI分析失败" } :=
  C2_classifier_totality errLLM ("") ("结构化失败") ("json请求超时") rfl rfl

/-- C4: merging with an empty list of new records returns the existing
digest exactly, for every oracle and every pair of digest strings. -/
theorem C4_merge_empty_noop (O : LLMOracle) (existing_summary new_summary : String) :
    merge_summaries O existing_summary new_summary [] = existing_summary := by
  simp [merge_summaries]

/-- C5: when the model call inside the merge fails on a non-empty record
list, the result is the deterministic concatenation of the existing
digest, the separator, and the new digest; in particular the existing
digest is a prefix of the result and the new digest appears verbatim as
a suffix. -/
theorem C5_merge_lossless_fallback (O : LLMOracle) (existing_summary new_summary : String)
    (new_important_news : List ImportantNewsRecord) (err : String)
    (hne : new_important_news ≠ [])
    (hfail : O.mergeResp existing_summary (numberedSummaries new_important_news) = .error err) :
    merge_summaries O existing_summary new_summary new_important_news =
        existing_summary ++ "\n\n【新增内容】\n" ++ new_summary ∧
    (∃ t, merge_summaries O existing_summary new_summary new_important_news =
        existing_summary ++ t) ∧
    (∃ p, merge_summaries O existing_summary new_summary new_important_news =
        p ++ new_summary) := by
  have h : merge_summaries O existing_summary new_summary new_important_news =
      existing_summary ++ "\n\n【新增内容】\n" ++ new_summary := by
    simp [merge_summaries, hne, hfail]
  refine ⟨h, ⟨"\n\n【新增内容】\n" ++ new_summary, ?_⟩, ⟨existing_summary ++ "\n\n【新增内容】\n", h⟩⟩
  rw [h, String.append_assoc]

/-- Witness for C5 at a concrete failing oracle and one-record list. -/
theorem C5_merge_lossless_fallback_witness :
    merge_summaries errLLM ("旧总结") ("新总结") [sampleRecord] =
        ("旧总结" : String) ++ "\n\n【新增内容】\n" ++ "新总结" ∧
    (∃ t, merge_summaries errLLM ("旧总结") ("新总结") [sampleRecord] = ("旧总结" : String) ++ t) ∧
    (∃ p, merge_summaries errLLM ("旧总结") ("新总结") [sampleRecord] = p ++ ("新总结" : String)) :=
  C5_merge_lossless_fallback errLLM ("旧总结") ("新总结") [sampleRecord] ("请求超时")
    (by decide) rfl

/-- C6 (amended): in the JSON fallback tier, when a JSON object is
located and parsed, missing keys map to defaults (importance 低, summary
and keywords empty); when no JSON object can be located, the classifier
returns a FAILED verdict whose summary is the diagnostic message
`AI分析失败:无法从响应中提取JSON，AI回复:` followed by the first 100
characters of the stripped raw response and `...` — not the first 200
characters of the raw response. -/
theorem C6_json_mode_fallback (O : LLMOracle) (content raw e1 : String)
    (h1 : O.structuredResp content = .error e1)
    (h2 : O.jsonResp content = .ok raw) :
    (∀ json_str j, extractJsonSpan (pyStrip raw) = some json_str →
        O.parseJson json_str = .ok j →
        analyze_news_importance O content =
          { importance := (j ("importance")).getD ("低"),
            summary := (j ("summary")).getD (""),
            keywords := (j ("keywords")).getD ("") }) ∧
    (extractJsonSpan (pyStrip raw) = none →
        analyze_news_importance O content =
          { importance := "FAILED",
            summary := "AI分析失败:" ++
              ("无法从响应中提取JSON，AI回复:" ++ pyTake (pyStrip raw) 100 ++ "..."),
            keywords := "AI分析失败" }) := by
  constructor
  · intro json_str j hspan hparse
    simp [analyze_news_importance, analyzeWithJsonMode, h1, h2, hspan, hparse]
  · intro hspan
    simp [analyze_news_importance, analyzeWithJsonMode, h1, h2, hspan]

/-- Witness for C6 at concrete oracles: an empty JSON object yields the
defaults, and a brace-free reply yields the diagnostic FAILED verdict. -/
theorem C6_json_mode_fallback_witness :
    analyze_news_importance jsonDefaultsLLM ("x") =
      { importance := (((fun _ => none) : String → Option String) ("importance")).getD ("低"),
        summary := (((fun _ => none) : String → Option String) ("summary")).getD (""),
        keywords := (((fun _ => none) : String → Option String) ("keywords")).getD ("") } ∧
    analyze_news_importance noJsonLLM ("x") =
      { importance := "FAILED",
        summary := "AI分析失败:" ++
          ("无法从响应中提取JSON，AI回复:" ++ pyTake (pyStrip ("no json here")) 100 ++ "..."),
        keywords := "AI分析失败" } :=
  ⟨(C6_json_mode_fallback jsonDefaultsLLM ("x") ("\x7b\x7d") ("结构化失败") rfl rfl).1
     ("\x7b\x7d") (fun _ => none) (by decide) rfl,
   (C6_json_mode_fallback noJsonLLM ("x") ("no json here") ("结构化失败") rfl rfl).2
     (by decide)⟩

/-- Counterexample for C6 as stated: with a brace-free raw reply the
FAILED verdict's summary is the diagnostic message, not the first 200
characters of the raw response content. -/
theorem C6_counterexample :
    (analyze_news_importance noJsonLLM ("x")).importance = "FAILED" ∧
    (analyze_news_importance noJsonLLM ("x")).summary ≠ pyTake ("no json here") 200 := by
  decide

/-- C10: the verdict and the include/skip decision depend only on the
content: for two items sharing a content, the filter outputs are equal
up to the `original_title` field, so in particular the inclusion
decision and the output length coincide. -/
theorem C10_title_noninterference (O : LLMOracle) (t1 t2 content : String) :
    filter_important_news O [{ title := t1, content := content }] =
      (filter_important_news O [{ title := t2, content := content }]).map
        (fun r => { r with original_title := t1 }) ∧
    (filter_important_news O [{ title := t1, content := content }]).length =
      (filter_important_news O [{ title := t2, content := content }]).length := by
  have h : filter_important_news O [{ title := t1, content := content }] =
      (filter_important_news O [{ title := t2, content := content }]).map
        (fun r => { r with original_title := t1 }) := by
    by_cases hf : (analyze_news_importance O content).importance = "FAILED"
    · simp [filter_important_news, hf]
    · by_cases hm : (analyze_news_importance O content).importance = "中" ∨
          (analyze_news_importance O content).importance = "高"
      · simp [filter_important_news, hf, hm]
      · simp [filter_important_news, hf, hm]
  exact ⟨h, by rw [h, List.length_map]⟩

/-- Helper: every record produced by the normalization loop either has
both fields non-empty (dict items pass the explicit check; non-dict items
with a non-empty string form fill both fields) or both fields empty (a
non-dict item whose string form is empty). -/
theorem processRawItems_shape (l : List UpstreamItem) :
    ∀ r ∈ processRawItems l,
      (r.title ≠ "" ∧ r.content ≠ "") ∨ (r.title = "" ∧ r.content = "") := by
  induction l with
  | nil => simp [processRawItems]
  | cons item rest ih =>
    cases item with
    | obj news_item =>
      intro r hr
      by_cases h : (parse_news_item news_item).title ≠ "" ∧
          (parse_news_item news_item).content ≠ ""
      · rw [show processRawItems (UpstreamItem.obj news_item :: rest) =
            parse_news_item news_item :: processRawItems rest from by
              simp [processRawItems, h]] at hr
        rcases List.mem_cons.mp hr with h2 | h2
        · subst h2; exact Or.inl h
        · exact ih r h2
      · rw [show processRawItems (UpstreamItem.obj news_item :: rest) =
            processRawItems rest from by simp [processRawItems, h]] at hr
        exact ih r hr
    | prim s =>
      intro r hr
      rw [show processRawItems (UpstreamItem.prim s :: rest) =
          { title := if pyLen s > 100 then pyTake s 100 ++ "..." else s, content := s }
            :: processRawItems rest from rfl] at hr
      rcases List.mem_cons.mp hr with h2 | h2
      · subst h2
        by_cases hs : s = ""
        · subst hs
          refine Or.inr ⟨?_, rfl⟩
          show (if pyLen ("") > 100 then pyTake ("") 100 ++ "..." else "") = ""
          decide
        · refine Or.inl ⟨?_, hs⟩
          show (if pyLen s > 100 then pyTake s 100 ++ "..." else s) ≠ ""
          by_cases hl : pyLen s > 100
          · rw [if_pos hl]; exact append_dots_ne_empty _
          · rw [if_neg hl]; exact hs
      · exact ih r h2

/-- C7 (amended): every item returned by `get_processed_news` has a
non-empty title and a non-empty content, except for items coming from a
non-dict upstream element whose string form is empty, which are appended
without the check and have both fields empty.  Dict items failing the
check are dropped; non-dict items are never checked. -/
theorem C7_processed_news_shape (fetched : Option (List UpstreamItem)) :
    ∀ r ∈ get_processed_news fetched,
      (r.title ≠ "" ∧ r.content ≠ "") ∨ (r.title = "" ∧ r.content = "") := by
  cases fetched with
  | none => simp [get_processed_news]
  | some raw_news =>
    by_cases h : raw_news = []
    · subst h; simp [get_processed_news]
    · rw [show get_processed_news (some raw_news) = processRawItems raw_news from by
        simp [get_processed_news, h]]
      exact processRawItems_shape raw_news

/-- Witness for C7 at a concrete fetch result and member. -/
theorem C7_processed_news_shape_witness :
    (({ title := "突发", content := "突发" } : RawNewsItem).title ≠ "" ∧
     ({ title := "突发", content := "突发" } : RawNewsItem).content ≠ "") ∨
    (({ title := "突发", content := "突发" } : RawNewsItem).title = "" ∧
     ({ title := "突发", content := "突发" } : RawNewsItem).content = "") :=
  C7_processed_news_shape (some [UpstreamItem.prim ("突发")])
    { title := "突发", content := "突发" } (by decide)

/-- Counterexample for C7 as stated: an upstream list whose single
element is a non-dict empty string reaches the pipeline as an item with
empty title and empty content instead of being dropped. -/
theorem C7_counterexample :
    get_processed_news (some [UpstreamItem.prim ("")]) = [{ title := "", content := "" }] ∧
    ¬ (∀ r ∈ get_processed_news (some [UpstreamItem.prim ("")]),
        r.title ≠ "" ∧ r.content ≠ "") := by
  decide

/-- Helper: the fetch node never touches the important news, the final
summary or the saved count. -/
theorem fetch_news_node_frame (O : PipelineOracle) (s : NewsAgentState) :
    (fetch_news_node O s).important_news = s.important_news ∧
    (fetch_news_node O s).final_summary = s.final_summary ∧
    (fetch_news_node O s).saved_count = s.saved_count := by
  unfold fetch_news_node
  cases O.fetchExc with
  | some e => simp
  | none =>
    by_cases h : get_processed_news O.fetchRaw = [] <;> simp [h]

/-- Helper: the summary node keeps the important news. -/
theorem create_summary_node_imp (O : PipelineOracle) (s : NewsAgentState) :
    (create_summary_node O s).important_news = s.important_news := by
  unfold create_summary_node
  cases O.summaryExc <;> simp

/-- Helper: without an injected exception, the summary node keeps the
error and sets the final summary from the digest composer. -/
theorem create_summary_node_ok (O : PipelineOracle) (s : NewsAgentState)
    (h : O.summaryExc = none) :
    (create_summary_node O s).error = s.error ∧
    (create_summary_node O s).final_summary = create_final_summary O.llm s.important_news := by
  simp [create_summary_node, h]

/-- Helper: the save node keeps the error, the final summary and the
important news. -/
theorem save_to_database_node_frame (O : PipelineOracle) (s : NewsAgentState) :
    (save_to_database_node O s).error = s.error ∧
    (save_to_database_node O s).final_summary = s.final_summary ∧
    (save_to_database_node O s).important_news = s.important_news := by
  simp [save_to_database_node]

/-- Helper: with no important news and the sentinel summary, the save
node saves nothing. -/
theorem save_to_database_node_zero (O : PipelineOracle) (s : NewsAgentState)
    (h1 : s.important_news = []) (h2 : s.final_summary = "今日暂无重要新闻。") :
    (save_to_database_node O s).saved_count = 0 := by
  simp [save_to_database_node, h1, h2, saveNewsLoop]

/-- C3 (amended): only an error recorded during the FETCH stage gates
the pipeline: if the state leaving the fetch node carries an error, the
run short-circuits to END and important_news, final_summary and
saved_count keep their initial values.  An error recorded during the
classify stage does not stop later stages: the compose node still
overwrites final_summary (with the sentinel, since no important news was
produced) while the error is preserved to the end of the run. -/
theorem C3_error_gating (O : PipelineOracle) :
    ((fetch_news_node O initialState).error ≠ "" →
       runAgent O = fetch_news_node O initialState ∧
       (runAgent O).important_news = [] ∧
       (runAgent O).final_summary = "" ∧
       (runAgent O).saved_count = 0) ∧
    (∀ e, (fetch_news_node O initialState).error = "" →
       (fetch_news_node O initialState).raw_news ≠ [] →
       O.classifyExc = some e → O.summaryExc = none →
       (runAgent O).error = "AI分析失败: " ++ e ∧
       (runAgent O).final_summary = "今日暂无重要新闻。" ∧
       (runAgent O).important_news = [] ∧
       (runAgent O).saved_count = 0) := by
  constructor
  · intro herr
    have hend : should_continue (fetch_news_node O initialState) = "end" := by
      simp [should_continue, herr]
    have hrun : runAgent O = fetch_news_node O initialState := by
      simp [runAgent, hend]
    obtain ⟨f1, f2, f3⟩ := fetch_news_node_frame O initialState
    exact ⟨hrun, by rw [hrun, f1]; rfl, by rw [hrun, f2]; rfl, by rw [hrun, f3]; rfl⟩
  · intro e herr hraw hcls hsum
    have hne : should_continue (fetch_news_node O initialState) ≠ "end" := by
      simp [should_continue, herr, hraw]
    have hrun : runAgent O = save_to_database_node O (create_summary_node O
        (analyze_news_node O (fetch_news_node O initialState))) := by
      simp [runAgent, hne]
    have h2 : analyze_news_node O (fetch_news_node O initialState) =
        { fetch_news_node O initialState with
          error := "AI分析失败: " ++ e,
          messages := (fetch_news_node O initialState).messages ++ ["AI分析失败: " ++ e] } := by
      simp [analyze_news_node, hraw, hcls]
    have himp : (analyze_news_node O (fetch_news_node O initialState)).important_news = [] := by
      rw [h2]
      exact (fetch_news_node_frame O initialState).1
    obtain ⟨g1, g2⟩ := create_summary_node_ok O
      (analyze_news_node O (fetch_news_node O initialState)) hsum
    have hfin : (create_summary_node O
        (analyze_news_node O (fetch_news_node O initialState))).final_summary =
        "今日暂无重要新闻。" := by
      rw [g2, himp]
      simp [create_final_summary]
    obtain ⟨s1, s2, s3⟩ := save_to_database_node_frame O
      (create_summary_node O (analyze_news_node O (fetch_news_node O initialState)))
    refine ⟨?_, ?_, ?_, ?_⟩
    · rw [hrun, s1, g1, h2]
    · rw [hrun, s2, hfin]
    · rw [hrun, s3, create_summary_node_imp, himp]
    · rw [hrun]
      exact save_to_database_node_zero O _ (by rw [create_summary_node_imp, himp]) hfin

/-- Witness for C3 (amended) at two concrete oracles: a raised fetch
short-circuits with everything at its initial value, and a raised
classify still lets compose set the sentinel summary. -/
theorem C3_error_gating_witness :
    (runAgent fetchFailOracle = fetch_news_node fetchFailOracle initialState ∧
     (runAgent fetchFailOracle).important_news = [] ∧
     (runAgent fetchFailOracle).final_summary = "" ∧
     (runAgent fetchFailOracle).saved_count = 0) ∧
    ((runAgent classifyFailOracle2).error = "AI分析失败: " ++ "网络异常" ∧
     (runAgent classifyFailOracle2).final_summary = "今日暂无重要新闻。" ∧
     (runAgent classifyFailOracle2).important_news = [] ∧
     (runAgent classifyFailOracle2).saved_count = 0) :=
  ⟨(C3_error_gating fetchFailOracle).1 (by decide),
   (C3_error_gating classifyFailOracle2).2 ("网络异常") (by decide) (by decide) rfl rfl⟩

/-- Counterexample for C3 as stated: with a classify-stage error the
error field is non-empty and final_summary is still empty at the moment
the error is recorded, yet the finished run has mutated final_summary
(the compose stage ran anyway), while the error is unchanged. -/
theorem C3_counterexample :
    (analyze_news_node classifyFailOracle
        (fetch_news_node classifyFailOracle initialState)).error ≠ "" ∧
    (analyze_news_node classifyFailOracle
        (fetch_news_node classifyFailOracle initialState)).final_summary = "" ∧
    (runAgent classifyFailOracle).final_summary = "今日暂无重要新闻。" ∧
    (runAgent classifyFailOracle).error =
      (analyze_news_node classifyFailOracle
        (fetch_news_node classifyFailOracle initialState)).error := by
  decide

/-- C8: when the fetch call does not raise but yields no news, the run
short-circuits to END at the conditional edge (classify, compose and
persist never run) and the report has zero important news, zero saved
records and a non-empty error. -/
theorem C8_fetch_empty_short_circuit (O : PipelineOracle)
    (hexc : O.fetchExc = none) (hempty : get_processed_news O.fetchRaw = []) :
    runAgent O = fetch_news_node O initialState ∧
    (generate_report (runAgent O)).important_news_count = 0 ∧
    (generate_report (runAgent O)).saved_count = 0 ∧
    (generate_report (runAgent O)).error ≠ "" := by
  have h1 : fetch_news_node O initialState =
      { initialState with
        error := "未获取到新闻数据",
        messages := initialState.messages ++ ["未获取到新闻数据"] } := by
    simp [fetch_news_node, hexc, hempty]
  have herr : (fetch_news_node O initialState).error ≠ "" := by
    rw [h1]
    decide
  have hend : should_continue (fetch_news_node O initialState) = "end" := by
    simp [should_continue, herr]
  have hrun : runAgent O = fetch_news_node O initialState := by
    simp [runAgent, hend]
  refine ⟨hrun, ?_, ?_, ?_⟩
  · rw [hrun, h1]; rfl
  · rw [hrun, h1]; rfl
  · rw [hrun, h1]; decide

/-- Witness for C8 at a concrete oracle whose fetch yields `None`. -/
theorem C8_fetch_empty_short_circuit_witness :
    runAgent emptyFetchOracle = fetch_news_node emptyFetchOracle initialState ∧
    (generate_report (runAgent emptyFetchOracle)).important_news_count = 0 ∧
    (generate_report (runAgent emptyFetchOracle)).saved_count = 0 ∧
    (generate_report (runAgent emptyFetchOracle)).error ≠ "" :=
  C8_fetch_empty_short_circuit emptyFetchOracle rfl rfl

/-- Helper: the per-record save loop increments the count at most once
per record. -/
theorem saveNewsLoop_count_le (O : PipelineOracle) (l : List ImportantNewsRecord) :
    ∀ k saved_count, (saveNewsLoop O l k saved_count).1 ≤ saved_count + l.length := by
  induction l with
  | nil => intro k c; simp [saveNewsLoop]
  | cons news rest ih =>
    intro k c
    unfold saveNewsLoop
    by_cases h1 : O.dbExists k news.original_title = true
    · rw [if_pos h1]
      have h := ih (k + 1) c
      simp only [List.length_cons]
      omega
    · rw [if_neg h1]
      by_cases h2 : O.dbInsert (k + 1) news.original_title = true
      · rw [if_pos h2]
        have h := ih (k + 2) (c + 1)
        simp only [List.length_cons]
        omega
      · rw [if_neg h2]
        have h := ih (k + 2) c
        simp only [List.length_cons]
        omega

/-- C9: at the end of the persist stage the saved count is at most the
number of important records plus one: the loop increments at most once
per record, and the digest row adds at most one more — and that extra row
is not even attempted when the final summary is empty or equals the
sentinel. -/
theorem C9_saved_count_bound (O : PipelineOracle) (state : NewsAgentState) :
    (save_to_database_node O state).saved_count ≤ state.important_news.length + 1 ∧
    ((state.final_summary = "" ∨ state.final_summary = "今日暂无重要新闻。") →
      (save_to_database_node O state).saved_count ≤ state.important_news.length) := by
  have hloop := saveNewsLoop_count_le O state.important_news 0 0
  have hcount : (save_to_database_node O state).saved_count =
      (if state.final_summary ≠ "" ∧ state.final_summary ≠ "今日暂无重要新闻。" then
         if O.dbExists (saveNewsLoop O state.important_news 0 0).2
             ("每日新闻总结 - " ++ O.today) then
           (saveNewsLoop O state.important_news 0 0).1
         else if O.dbInsert ((saveNewsLoop O state.important_news 0 0).2 + 1)
             ("每日新闻总结 - " ++ O.today) then
           (saveNewsLoop O state.important_news 0 0).1 + 1
         else (saveNewsLoop O state.important_news 0 0).1
       else (saveNewsLoop O state.important_news 0 0).1) := rfl
  constructor
  · rw [hcount]
    split_ifs <;> omega
  · intro hdisj
    have hc : ¬(state.final_summary ≠ "" ∧ state.final_summary ≠ "今日暂无重要新闻。") := by
      rcases hdisj with h | h <;> simp [h]
    rw [hcount, if_neg hc]
    omega

/-- Witness for C9 at a concrete oracle and persist-stage state with one
important record and an empty final summary. -/
theorem C9_saved_count_bound_witness :
    (save_to_database_node basePipelineOracle persistStateC9).saved_count ≤
        persistStateC9.important_news.length + 1 ∧
    (save_to_database_node basePipelineOracle persistStateC9).saved_count ≤
        persistStateC9.important_news.length :=
  ⟨(C9_saved_count_bound basePipelineOracle persistStateC9).1,
   (C9_saved_count_bound basePipelineOracle persistStateC9).2 (Or.inl rfl)⟩
